import Mathlib

/-!
Verification of the tentOS live state engine and automation core.

This file gives a shallow embedding of the core of the repository:

* `state_manager.py` : `fahrenheit_to_celsius`, `calculate_vpd`, the
  `TentState.update_sensor` multi-entity averaging path, and the
  `StateManager._load_config` / `reload_config` pair together with
  `config.py` and its `load_tents_config`.
* `automation.py` : the `AutomationEngine` rule evaluator
  (`evaluate_sensor_rules`, `_check_schedules`, `_execute_action`) as a
  pure step function on per-rule runtime state.

Python floats are idealised as exact rationals (for the executable sensor
and automation paths) or reals (for the `math.exp`-based VPD path);
`round(x, 1)` is idealised as round-half-up to one decimal — none of the
properties proved here exercise a tie or a float-representation boundary.
Timestamps (`datetime.now`) are passed explicitly as rational numbers of
seconds.  Fallible or effectful code (HA service calls, file loading) is
made explicit: external calls become emitted `Command` values, file
parsing results become `Option` parameters.
-/

set_option maxHeartbeats 1600000

/-! ## Rounding helpers

Python `round(x, 1)` modelled on exact numbers: scale by 10, round to an
integer, scale back.  (`round` here is Mathlib round-half-up; the code
only ever rounds values that are not at a tie.) -/

/-- One-decimal rounding on rationals, modelling Python `round(x, 1)`. -/
def round1 (x : ℚ) : ℚ := (round (10 * x) : ℤ) / 10

/-- One-decimal rounding on reals, modelling Python `round(x, 1)` in the
real-valued VPD computation. -/
noncomputable def round1R (x : ℝ) : ℝ := ((round (10 * x) : ℤ) : ℝ) / 10

/-! ## VPD computation (`state_manager.py`, lines 20-54)

`fahrenheit_to_celsius` and `calculate_vpd`, translated from the source.
`calculate_vpd` guards against bad humidity first, then auto-detects
Fahrenheit input (any temperature above 50 is treated as Fahrenheit and
converted), then applies the Tetens formula and rounds to one decimal. -/

/-- `fahrenheit_to_celsius` on rationals (used by the sensor-ingestion path). -/
def fahrenheit_to_celsius (f : ℚ) : ℚ := (f - 32) * 5 / 9

/-- `fahrenheit_to_celsius` on reals (used inside `calculate_vpd`). -/
noncomputable def fahrenheitToCelsiusR (f : ℝ) : ℝ := (f - 32) * 5 / 9

/-- `calculate_vpd(temp, humidity)` from `state_manager.py`. -/
noncomputable def calculate_vpd (temp humidity : ℝ) : ℝ :=
  if humidity ≤ 0 ∨ 100 < humidity then 0
  else
    let temp_c := if 50 < temp then fahrenheitToCelsiusR temp else temp
    let svp := 0.6108 * Real.exp ((17.27 * temp_c) / (temp_c + 237.3))
    round1R (svp * (1 - humidity / 100))

/-- The VPD formula exactly as the specification sentence of claim C4 states
it: guard on humidity, then `SVP(T) * (1 - RH/100)` with `T` used as Celsius
directly (no Fahrenheit auto-detection), rounded to one decimal.  Used to
compare the spec wording against `calculate_vpd`. -/
noncomputable def vpd_spec_formula (temp humidity : ℝ) : ℝ :=
  if humidity ≤ 0 ∨ 100 < humidity then 0
  else round1R (0.6108 * Real.exp ((17.27 * temp) / (temp + 237.3)) * (1 - humidity / 100))

/-! ## Association-list maps

Python `dict` lookups and in-place updates are modelled by association
lists that preserve insertion order: an update of an existing key rewrites
it in place, a new key is appended (exactly the iteration-order semantics a
Python `dict` has). -/

/-- Python `d.get(k)`. -/
def lookup {β : Type} (k : String) : List (String × β) → Option β
  | [] => none
  | (k', v) :: rest => if k' = k then some v else lookup k rest

/-- Python `d[k] = v`: replace in place if present, else append. -/
def upsert {β : Type} (k : String) (v : β) : List (String × β) → List (String × β)
  | [] => [(k, v)]
  | (k', v') :: rest => if k' = k then (k, v) :: rest else (k', v') :: upsert k v rest

/-! ## Sensor ingestion (`state_manager.py`, `TentState.update_sensor`, lines 227-268)

A sensor field stores the averaged `value`, the `unit` supplied when the
field was first created, and the per-entity raw value map `_entities`
(here `entities`).  The stored `updated` timestamp strings are not
modelled (no claim mentions them). -/

/-- One sensor field of a tent: `self.sensors[sensor_type]` in the source. -/
structure SensorField where
  value : Option ℚ
  unit : Option String
  entities : List (String × Option ℚ)
deriving DecidableEq

/-- The `self.sensors` map of a `TentState`. -/
abbrev SensorsMap := List (String × SensorField)

/-- The Fahrenheit-detection condition of `update_sensor`:
`(unit and "f" in unit.lower()) or (unit is None and temp_val > 50)`.
Note Python truthiness: an empty unit string is falsy. -/
def isFahrenheit (v : ℚ) : Option String → Bool
  | some u => !u.isEmpty && u.toLower.contains 'f'
  | none => decide (50 < v)

/-- The temperature-normalisation step of `update_sensor` for a numeric
value: convert to Celsius when Fahrenheit is detected, and round to one
decimal either way. -/
def normalizeTemperature (v : ℚ) (unit : Option String) : ℚ :=
  if isFahrenheit v unit then round1 (fahrenheit_to_celsius v) else round1 v

/-- The value actually stored for a reading: temperature fields are
normalised, every other field keeps the raw reading.  `none` models a null
reading (`value is None` skips normalisation in the source). -/
def normalizeValue (sensorType : String) (value : Option ℚ) (unit : Option String) : Option ℚ :=
  if sensorType = "temperature" then value.map (fun v => normalizeTemperature v unit)
  else value

/-- The recomputed average of a field: the arithmetic mean of all non-null
per-entity values, rounded to one decimal; `None` if no non-null value is
known (source lines 257-258). -/
def averagedValue (entities : List (String × Option ℚ)) : Option ℚ :=
  let values := entities.filterMap (fun p => p.2)
  if values.isEmpty then none else some (round1 (values.sum / (values.length : ℚ)))

/-- `TentState.update_sensor(sensor_type, value, unit, entity_id)` restricted
to its effect on the sensors map.  If the field already exists and a truthy
entity id is supplied, the reading is stored per entity and the average
recomputed; otherwise the whole field record is replaced by a fresh one
holding the raw (normalised) reading. -/
def updateSensor (sensors : SensorsMap) (sensorType : String) (value : Option ℚ)
    (unit : Option String) (entityId : Option String) : SensorsMap :=
  let v := normalizeValue sensorType value unit
  let fresh : SensorField :=
    { value := v, unit := unit,
      entities := match entityId with
        | some e => if e = "" then [] else [(e, v)]
        | none => [] }
  match lookup sensorType sensors, entityId with
  | some existing, some e =>
    if e = "" then upsert sensorType fresh sensors
    else
      let entities := upsert e v existing.entities
      upsert sensorType
        { value := averagedValue entities, unit := existing.unit, entities := entities }
        sensors
  | _, _ => upsert sensorType fresh sensors

/-- `self.sensors.get(sensor_type, {}).get("value")`. -/
def sensorValue (sensors : SensorsMap) (sensorType : String) : Option ℚ :=
  match lookup sensorType sensors with
  | some f => f.value
  | none => none

/-- One inbound reading for a fixed field: source entity, raw value, unit. -/
structure Reading where
  entity : String
  value : Option ℚ
  unit : Option String

/-- Feed a sequence of readings for one field through `update_sensor`,
starting from an empty sensors map. -/
def applyReadings (field : String) (rs : List Reading) : SensorsMap :=
  rs.foldl (fun m r => updateSensor m field r.value r.unit (some r.entity)) []

/-- The latest-normalised-value-per-entity map after a sequence of readings
(the contents of the `_entities` dict). -/
def latestEntities (field : String) (rs : List Reading) : List (String × Option ℚ) :=
  rs.foldl (fun m r => upsert r.entity (normalizeValue field r.value r.unit) m) []

/-! ## Automation rules (`automation.py`)

The rule model, per-rule runtime state, and the per-rule body of
`evaluate_sensor_rules` / `_check_schedules` / `_execute_action` as pure
step functions.  One evaluation returns the updated runtime state plus the
list of external HA service calls issued (`Command`s).  A `none` result
models a Python `TypeError` escaping the evaluation (a threshold field that
is `None` being compared against a float); no claim exercises that path.
The `haOk` flag tells whether the HA service call succeeds; on failure the
call is still issued but the state-recording lines are skipped (the
`except` branch of `_execute_action`). -/

inductive TriggerType where
  | sensor_above
  | sensor_below
  | sensor_range
  | schedule
deriving DecidableEq

inductive ActionType where
  | turn_on
  | turn_off
  | set_speed
deriving DecidableEq

/-- `AutomationRule` (automation.py lines 29-53).  The integer duration
fields are modelled as rationals, since they are only ever compared against
float elapsed-seconds values. -/
structure AutomationRule where
  id : String
  name : String
  enabled : Bool
  tent_id : String
  trigger_type : TriggerType
  trigger_sensor : Option String
  trigger_value : Option ℚ
  trigger_value_max : Option ℚ
  trigger_schedule_on : Option String
  trigger_schedule_off : Option String
  action_type : ActionType
  action_actuator : String
  action_value : Option ℤ
  hysteresis : ℚ
  min_on_duration : ℚ
  min_off_duration : ℚ
  cooldown : ℚ
deriving DecidableEq

/-- `RuleState` (automation.py lines 56-62): per-rule runtime state. -/
structure RuleState where
  last_triggered : Option ℚ
  last_action : Option String
  last_action_time : Option ℚ
  triggered : Bool
deriving DecidableEq

/-- An entity reference in a tent configuration: `config.json` allows a
single entity id or an array of them per slot. -/
inductive EntityRef where
  | one : String → EntityRef
  | many : List String → EntityRef
deriving DecidableEq

/-- Python truthiness of an actuator-slot value: `None`, `""` and `[]` are
falsy. -/
def entityFalsy : EntityRef → Bool
  | .one s => s.isEmpty
  | .many l => l.isEmpty

/-- `TentConfig` (config.py lines 65-76) restricted to the fields the
claims touch; targets, schedules and notification toggles are carried by
the same object but never read by the modelled operations. -/
structure TentConfig where
  id : String
  name : String
  sensors : List (String × EntityRef)
  actuators : List (String × EntityRef)
deriving DecidableEq

/-- An external Home Assistant service call issued by `_execute_action`. -/
inductive Command where
  | turn_on : EntityRef → Command
  | turn_off : EntityRef → Command
  | set_fan_speed : EntityRef → ℤ → Command
deriving DecidableEq

/-- Python truthiness of `rule.action_value` (`None` and `0` are falsy). -/
def intTruthy : Option ℤ → Bool
  | none => false
  | some n => decide (n ≠ 0)

/-- `_execute_action(rule, action, tent_config)` (automation.py lines
249-283).  Resolves the actuator slot through the tent config (`None`
config resolves nothing), drops the action with a warning when
unresolved, otherwise issues exactly one service call and — if the call
succeeds — records `last_action`, `last_action_time`, `last_triggered`. -/
def executeAction (rule : AutomationRule) (action : String) (tentConfig : Option TentConfig)
    (haOk : Bool) (now : ℚ) (st : RuleState) : RuleState × List Command :=
  let entity : Option EntityRef :=
    match tentConfig with
    | none => none
    | some cfg => lookup rule.action_actuator cfg.actuators
  match entity with
  | none => (st, [])
  | some e =>
    if entityFalsy e then (st, [])
    else
      let cmd :=
        if action = "on" then
          if rule.action_type = ActionType.set_speed ∧ intTruthy rule.action_value then
            Command.set_fan_speed e (rule.action_value.getD 0)
          else Command.turn_on e
        else Command.turn_off e
      if haOk then
        ({ st with last_action := some action, last_action_time := some now,
                   last_triggered := some now }, [cmd])
      else (st, [cmd])

/-- The hysteresis-transition block of `evaluate_sensor_rules` (lines
189-236): given the incoming value, returns the action to fire (`none` when
`should_trigger` stays false — in the source `should_trigger` is set
together with `action` in every branch, so the pair collapses to one
option) and the runtime state with `triggered` already mutated, exactly as
the source mutates it before the duration guard runs.  The outer `none`
models the `TypeError` raised when a needed threshold field is `None`. -/
def transitionStep (rule : AutomationRule) (st : RuleState) (value : ℚ) :
    Option (Option String × RuleState) :=
  match rule.trigger_type with
  | .sensor_above =>
    match rule.trigger_value with
    | none => none
    | some threshold =>
      if threshold < value ∧ ¬st.triggered then
        some (some (if rule.action_type = ActionType.turn_on then "on" else "off"),
              { st with triggered := true })
      else if value < threshold - rule.hysteresis ∧ st.triggered then
        some (some (if rule.action_type = ActionType.turn_on then "off" else "on"),
              { st with triggered := false })
      else some (none, st)
  | .sensor_below =>
    match rule.trigger_value with
    | none => none
    | some threshold =>
      if value < threshold ∧ ¬st.triggered then
        some (some (if rule.action_type = ActionType.turn_on then "on" else "off"),
              { st with triggered := true })
      else if threshold + rule.hysteresis < value ∧ st.triggered then
        some (some (if rule.action_type = ActionType.turn_on then "off" else "on"),
              { st with triggered := false })
      else some (none, st)
  | .sensor_range =>
    match rule.trigger_value with
    | none => none
    | some min_val =>
      if value < min_val ∧ ¬st.triggered then
        some (some (if rule.action_type = ActionType.turn_on then "on" else "off"),
              { st with triggered := true })
      else
        match rule.trigger_value_max with
        | none => none
        | some max_val =>
          if max_val < value ∧ ¬st.triggered then
            some (some (if rule.action_type = ActionType.turn_on then "on" else "off"),
                  { st with triggered := true })
          else if min_val ≤ value ∧ value ≤ max_val ∧ st.triggered then
            some (some (if rule.action_type = ActionType.turn_on then "off" else "on"),
                  { st with triggered := false })
          else some (none, st)
  | .schedule => some (none, st)

/-- The per-rule body of `evaluate_sensor_rules` (automation.py lines
164-247): skip disabled / other-tent / other-sensor rules, skip the whole
evaluation inside the cooldown window, run the hysteresis transition, then
apply the minimum-duration guard before executing the action.  Note the
guard runs on the state **after** `triggered` has been mutated. -/
def evaluateRule (rule : AutomationRule) (st : RuleState) (tentId sensorType : String)
    (value now : ℚ) (tentConfig : Option TentConfig) (haOk : Bool) :
    Option (RuleState × List Command) :=
  if ¬rule.enabled then some (st, [])
  else if rule.tent_id ≠ tentId then some (st, [])
  else if rule.trigger_sensor ≠ some sensorType then some (st, [])
  else
    let inCooldown :=
      match st.last_action_time with
      | some t => decide (now - t < rule.cooldown)
      | none => false
    if inCooldown then some (st, [])
    else
      match transitionStep rule st value with
      | none => none
      | some (none, st') => some (st', [])
      | some (some action, st') =>
        match st'.last_action_time, st'.last_action with
        | some t, some a =>
          if a = "on" ∧ now - t < rule.min_on_duration then some (st', [])
          else if a = "off" ∧ now - t < rule.min_off_duration then some (st', [])
          else some (executeAction rule action tentConfig haOk now st')
        | _, _ => some (executeAction rule action tentConfig haOk now st')

/-- The per-rule body of `_check_schedules` (automation.py lines 143-162):
on an exact wall-clock `HH:MM` match, fire the corresponding action unless
`last_action` already equals it.  The source calls `_execute_action`
without a tent config here, so actuator resolution runs against `None`. -/
def checkScheduleRule (rule : AutomationRule) (currentTime : String) (st : RuleState)
    (now : ℚ) (haOk : Bool) : RuleState × List Command :=
  if ¬rule.enabled ∨ rule.trigger_type ≠ TriggerType.schedule then (st, [])
  else if rule.trigger_schedule_on = some currentTime then
    if st.last_action ≠ some "on" then executeAction rule "on" none haOk now st
    else (st, [])
  else if rule.trigger_schedule_off = some currentTime then
    if st.last_action ≠ some "off" then executeAction rule "off" none haOk now st
    else (st, [])
  else (st, [])

/-! ## Config loading and reload (`config.py` lines 90-117,
`state_manager.py` lines 345-403)

`load_tents_config` never raises: a missing or malformed file (modelled as
`none`) simply falls through, and the final fallback returns the empty
list.  `reload_config` clears the in-memory tents and routing table first
and then rebuilds them from whatever the loader returned. -/

/-- `load_tents_config()`: prefer a parsed non-empty `config.json` tent
list, else fall back to `options.json`, else the empty list.  `none` models
a file that is missing or failed to parse (both paths fall through in the
source). -/
def load_tents_config (configJson optionsJson : Option (List TentConfig)) : List TentConfig :=
  match configJson with
  | some tents => if ¬tents.isEmpty then tents else
      match optionsJson with
      | some tents2 => tents2
      | none => []
  | none =>
      match optionsJson with
      | some tents2 => tents2
      | none => []

/-- A `TentState` as `_load_config` creates it: the config plus an empty
sensors map (derived aggregates start unset). -/
structure TentState where
  config : TentConfig
  sensors : SensorsMap
deriving DecidableEq

/-- `TentState(config)`. -/
def mkTentState (c : TentConfig) : TentState := ⟨c, []⟩

/-- The coordinator state owned by `StateManager`: the per-tent aggregates
and the entity routing table `entity_id -> (tent_id, category, type)`. -/
structure StateManagerState where
  tents : List (String × TentState)
  entityToTent : List (String × (String × String × String))
deriving DecidableEq

/-- The routing-table construction of `_load_config` for one slot map:
array slots map every truthy entity id, single slots map the id if truthy. -/
def addRoutes (tentId category : String) (slots : List (String × EntityRef))
    (table : List (String × (String × String × String))) :
    List (String × (String × String × String)) :=
  slots.foldl (fun tb slot =>
    match slot.2 with
    | .many ids =>
        ids.foldl (fun tb2 eid =>
          if eid = "" then tb2 else upsert eid (tentId, category, slot.1) tb2) tb
    | .one eid =>
        if eid = "" then tb else upsert eid (tentId, category, slot.1) tb) table

/-- `_load_config()` (state_manager.py lines 358-383) applied to an
already-loaded config list: adds every tent aggregate and its sensor and
actuator routes on top of the existing maps. -/
def loadConfigSM (st : StateManagerState) (configs : List TentConfig) : StateManagerState :=
  configs.foldl (fun s c =>
    { tents := upsert c.id (mkTentState c) s.tents,
      entityToTent := addRoutes c.id "actuator" c.actuators
        (addRoutes c.id "sensor" c.sensors s.entityToTent) }) st

/-- `reload_config()` (state_manager.py lines 385-403) restricted to its
effect on the in-memory maps: clear `self.tents` and `self.entity_to_tent`,
then run `_load_config` on whatever `load_tents_config` produced.  (The
subsequent HA state re-fetch and websocket broadcasts do not touch these
maps.) -/
def reload_config (_prev : StateManagerState) (loaded : List TentConfig) : StateManagerState :=
  loadConfigSM { tents := [], entityToTent := [] } loaded

/-! ## Concrete rule, config and state fixtures used by the claims -/

/-- The above-threshold rule of claim C2 (threshold 28, hysteresis 1) with
the default safety fields of `AutomationRule`. -/
def ruleC2 : AutomationRule :=
  { id := "r1", name := "exhaust high temp", enabled := true, tent_id := "tent1",
    trigger_type := TriggerType.sensor_above, trigger_sensor := some "temperature",
    trigger_value := some 28, trigger_value_max := none,
    trigger_schedule_on := none, trigger_schedule_off := none,
    action_type := ActionType.turn_on, action_actuator := "exhaust_fan",
    action_value := none, hysteresis := 1, min_on_duration := 60,
    min_off_duration := 60, cooldown := 30 }

/-- A tent config whose `exhaust_fan` actuator slot resolves. -/
def cfgC2 : TentConfig :=
  { id := "tent1", name := "Tent 1",
    sensors := [("temperature", EntityRef.one "sensor.temp")],
    actuators := [("exhaust_fan", EntityRef.one "switch.fan")] }

/-- A tent config with no actuator mapped (claim C8). -/
def cfgNoActuator : TentConfig :=
  { id := "tent1", name := "Tent 1",
    sensors := [("temperature", EntityRef.one "sensor.temp")],
    actuators := [] }

/-- An enabled schedule rule (claim C7). -/
def ruleSched : AutomationRule :=
  { id := "r2", name := "lights", enabled := true, tent_id := "tent1",
    trigger_type := TriggerType.schedule, trigger_sensor := none,
    trigger_value := none, trigger_value_max := none,
    trigger_schedule_on := some "06:00", trigger_schedule_off := some "18:00",
    action_type := ActionType.turn_on, action_actuator := "light",
    action_value := none, hysteresis := 0.5, min_on_duration := 60,
    min_off_duration := 60, cooldown := 30 }

/-- A well-formed tent configuration (claim C3). -/
def goodTent : TentConfig :=
  { id := "tent1", name := "Tent 1",
    sensors := [("temperature", EntityRef.one "sensor.temp")],
    actuators := [("exhaust_fan", EntityRef.one "switch.fan")] }

/-! ## Theorems

### Rounding lemmas -/

lemma round1R_eq_of_bounds (x : ℝ) (n : ℤ) (h1 : (n : ℝ) ≤ 10 * x + 1 / 2)
    (h2 : 10 * x + 1 / 2 < n + 1) : round1R x = (n : ℝ) / 10 := by
  have : round (10 * x) = n := by
    rw [round_eq, Int.floor_eq_iff]
    exact ⟨h1, h2⟩
  rw [round1R, this]

lemma round1R_le_of_lt (x : ℝ) (n : ℤ) (h2 : 10 * x + 1 / 2 < n + 1) :
    round1R x ≤ (n : ℝ) / 10 := by
  have hfl : round (10 * x) ≤ n := by
    rw [round_eq]
    have hlt : ⌊10 * x + 1 / 2⌋ < n + 1 := by
      rw [Int.floor_lt]
      push_cast
      linarith
    omega
  rw [round1R]
  have : ((round (10 * x) : ℤ) : ℝ) ≤ (n : ℝ) := by exact_mod_cast hfl
  linarith

lemma round1R_ge_of_le (x : ℝ) (n : ℤ) (h1 : (n : ℝ) ≤ 10 * x + 1 / 2) :
    (n : ℝ) / 10 ≤ round1R x := by
  have hfl : n ≤ round (10 * x) := by
    rw [round_eq, Int.le_floor]
    exact h1
  rw [round1R]
  have : (n : ℝ) ≤ ((round (10 * x) : ℤ) : ℝ) := by exact_mod_cast hfl
  linarith

lemma round1R_mono {x y : ℝ} (h : x ≤ y) : round1R x ≤ round1R y := by
  rw [round1R, round1R]
  have h1 : round (10 * x) ≤ round (10 * y) := by
    rw [round_eq, round_eq]
    exact Int.floor_le_floor (by linarith)
  have h2 : ((round (10 * x) : ℤ) : ℝ) ≤ ((round (10 * y) : ℤ) : ℝ) := by exact_mod_cast h1
  linarith

lemma round1_eq_of_bounds (x : ℚ) (n : ℤ) (h1 : (n : ℚ) ≤ 10 * x + 1 / 2)
    (h2 : 10 * x + 1 / 2 < n + 1) : round1 x = (n : ℚ) / 10 := by
  have : round (10 * x) = n := by
    rw [round_eq, Int.floor_eq_iff]
    exact ⟨h1, h2⟩
  rw [round1, this]

/-! ### Bounds on the exponentials the VPD claims need

The Tetens argument at 25 degrees Celsius is `17.27 * 25 / 262.3 = 8635 / 5246`. -/

lemma exp_arg25_lower : (5.17 : ℝ) ≤ Real.exp (8635 / 5246) := by
  have h := Real.sum_le_exp_of_nonneg (x := 8635 / 5246) (by norm_num) 7
  refine le_trans ?_ h
  rw [Finset.sum_range_succ, Finset.sum_range_succ, Finset.sum_range_succ,
    Finset.sum_range_succ, Finset.sum_range_succ, Finset.sum_range_succ,
    Finset.sum_range_succ, Finset.sum_range_zero]
  norm_num [Nat.factorial]

lemma exp_arg25_upper : Real.exp (8635 / 5246) ≤ 5.2 := by
  have ht : Real.exp (8635 / 10492) ≤ 2.28 := by
    have h := Real.exp_bound' (x := 8635 / 10492) (by norm_num) (by norm_num) (n := 4) (by norm_num)
    refine le_trans h ?_
    rw [Finset.sum_range_succ, Finset.sum_range_succ, Finset.sum_range_succ,
      Finset.sum_range_succ, Finset.sum_range_zero]
    norm_num [Nat.factorial]
  have hsplit : (8635 / 5246 : ℝ) = 8635 / 10492 + 8635 / 10492 := by norm_num
  rw [hsplit, Real.exp_add]
  calc Real.exp (8635 / 10492) * Real.exp (8635 / 10492)
      ≤ 2.28 * 2.28 := by
        exact mul_le_mul ht ht (Real.exp_pos _).le (by norm_num)
    _ ≤ 5.2 := by norm_num

/-! ### Evaluation lemmas for `calculate_vpd` -/

lemma calculate_vpd_eval (temp humidity : ℝ) (h0 : ¬(humidity ≤ 0 ∨ 100 < humidity))
    (h50 : ¬(50 < temp)) :
    calculate_vpd temp humidity
      = round1R (0.6108 * Real.exp ((17.27 * temp) / (temp + 237.3)) * (1 - humidity / 100)) := by
  simp only [calculate_vpd, if_neg h0, if_neg h50]

lemma calculate_vpd_eval_hot (temp humidity : ℝ) (h0 : ¬(humidity ≤ 0 ∨ 100 < humidity))
    (h50 : 50 < temp) :
    calculate_vpd temp humidity
      = round1R (0.6108 * Real.exp ((17.27 * ((temp - 32) * 5 / 9)) / ((temp - 32) * 5 / 9 + 237.3))
          * (1 - humidity / 100)) := by
  simp only [calculate_vpd, fahrenheitToCelsiusR, if_neg h0, if_pos h50]

lemma vpd_25_60 : calculate_vpd 25 60 = 1.3 := by
  rw [calculate_vpd_eval 25 60 (by norm_num) (by norm_num)]
  have harg : ((17.27 * 25) / (25 + 237.3) : ℝ) = 8635 / 5246 := by norm_num
  rw [harg]
  have hlo := exp_arg25_lower
  have hhi := exp_arg25_upper
  rw [round1R_eq_of_bounds _ 13 (by nlinarith) (by nlinarith)]
  norm_num

lemma vpd_25_80 : calculate_vpd 25 80 = 0.6 := by
  rw [calculate_vpd_eval 25 80 (by norm_num) (by norm_num)]
  have harg : ((17.27 * 25) / (25 + 237.3) : ℝ) = 8635 / 5246 := by norm_num
  rw [harg]
  have hlo := exp_arg25_lower
  have hhi := exp_arg25_upper
  rw [round1R_eq_of_bounds _ 6 (by nlinarith) (by nlinarith)]
  norm_num

lemma vpd_25_40 : calculate_vpd 25 40 = 1.9 := by
  rw [calculate_vpd_eval 25 40 (by norm_num) (by norm_num)]
  have harg : ((17.27 * 25) / (25 + 237.3) : ℝ) = 8635 / 5246 := by norm_num
  rw [harg]
  have hlo := exp_arg25_lower
  have hhi := exp_arg25_upper
  rw [round1R_eq_of_bounds _ 19 (by nlinarith) (by nlinarith)]
  norm_num

lemma vpd_rh_antitone (T h₁ h₂ : ℝ) (hpos : 0 < h₁) (hle : h₁ ≤ h₂) (hub : h₂ ≤ 100) :
    calculate_vpd T h₂ ≤ calculate_vpd T h₁ := by
  have g1 : ¬(h₁ ≤ 0 ∨ 100 < h₁) := by push_neg; constructor <;> linarith
  have g2 : ¬(h₂ ≤ 0 ∨ 100 < h₂) := by push_neg; constructor <;> linarith
  by_cases h50 : 50 < T
  · rw [calculate_vpd_eval_hot T h₁ g1 h50, calculate_vpd_eval_hot T h₂ g2 h50]
    apply round1R_mono
    have hsvp : (0 : ℝ) ≤ 0.6108 * Real.exp ((17.27 * ((T - 32) * 5 / 9)) / ((T - 32) * 5 / 9 + 237.3)) :=
      by positivity
    nlinarith
  · rw [calculate_vpd_eval T h₁ g1 h50, calculate_vpd_eval T h₂ g2 h50]
    apply round1R_mono
    have hsvp : (0 : ℝ) ≤ 0.6108 * Real.exp ((17.27 * T) / (T + 237.3)) := by positivity
    nlinarith

/-! ### Bounds for the C4 counterexample at `calculate_vpd 60 50` -/

lemma vpd_60_50_code_le : calculate_vpd 60 50 ≤ 0.9 := by
  rw [calculate_vpd_eval_hot 60 50 (by norm_num) (by norm_num)]
  have harg : ((17.27 * ((60 - 32) * 5 / 9)) / ((60 - 32) * 5 / 9 + 237.3) : ℝ) = 3454 / 3251 := by
    norm_num
  rw [harg]
  have hz : Real.exp (3454 / 3251) ≤ 2.9 := by
    have hsplit : (3454 / 3251 : ℝ) = 1 + 203 / 3251 := by norm_num
    rw [hsplit, Real.exp_add]
    have h1 : Real.exp 1 < 2.7182818286 := Real.exp_one_lt_d9
    have h2 : Real.exp (203 / 3251 : ℝ) ≤ 1 / (1 - 203 / 3251) :=
      Real.exp_bound_div_one_sub_of_interval (by norm_num) (by norm_num)
    have h3 : (1 / (1 - 203 / 3251) : ℝ) ≤ 1.06661 := by norm_num
    nlinarith [Real.exp_pos (1 : ℝ), Real.exp_pos (203 / 3251 : ℝ)]
  have := round1R_le_of_lt (0.6108 * Real.exp (3454 / 3251) * (1 - 50 / 100)) 9
    (by nlinarith [Real.exp_pos (3454 / 3251 : ℝ)])
  calc round1R (0.6108 * Real.exp (3454 / 3251) * (1 - 50 / 100)) ≤ ((9 : ℤ) : ℝ) / 10 := this
    _ ≤ 0.9 := by norm_num

lemma vpd_60_50_spec_ge : (1.4 : ℝ) ≤ vpd_spec_formula 60 50 := by
  rw [vpd_spec_formula, if_neg (by norm_num)]
  have harg : ((17.27 * 60) / (60 + 237.3) : ℝ) = 3454 / 991 := by norm_num
  rw [harg]
  have hz : (4445 / 991 : ℝ) ≤ Real.exp (3454 / 991) := by
    have := Real.add_one_le_exp (3454 / 991 : ℝ)
    linarith
  have := round1R_ge_of_le (0.6108 * Real.exp (3454 / 991) * (1 - 50 / 100)) 14 (by nlinarith)
  calc (1.4 : ℝ) = ((14 : ℤ) : ℝ) / 10 := by norm_num
    _ ≤ round1R (0.6108 * Real.exp (3454 / 991) * (1 - 50 / 100)) := this

/-- Claim C4, counterexample: at temperature 60 and humidity 50 the code
does not return the spec formula value — the Fahrenheit auto-detection
converts 60 to Celsius first, giving at most 0.9, while the formula as the
claim states it gives at least 1.4. -/
theorem c4_counterexample : calculate_vpd 60 50 ≠ vpd_spec_formula 60 50 := by
  have h1 := vpd_60_50_code_le
  have h2 := vpd_60_50_spec_ge
  intro h
  rw [h] at h1
  linarith

/-- Claim C4 (amended): `calculate_vpd T RH` is 0 whenever `RH ≤ 0` or
`RH > 100` (for every T), and for every temperature `T ≤ 50` it equals the
claimed formula `round1(SVP(T) * (1 - RH/100))`; for `T > 50` the code
first converts T from Fahrenheit to Celsius (auto-detection), so the
claimed formula only holds below that threshold. -/
theorem c4_amended (temp humidity : ℝ) :
    ((humidity ≤ 0 ∨ 100 < humidity) → calculate_vpd temp humidity = 0) ∧
    (temp ≤ 50 → calculate_vpd temp humidity = vpd_spec_formula temp humidity) := by
  constructor
  · intro hbad
    rw [calculate_vpd, if_pos hbad]
  · intro hT
    by_cases hbad : humidity ≤ 0 ∨ 100 < humidity
    · rw [calculate_vpd, if_pos hbad, vpd_spec_formula, if_pos hbad]
    · rw [calculate_vpd_eval temp humidity hbad (by linarith), vpd_spec_formula, if_neg hbad]

/-- Witness for C4 (amended), at humidity 101 and at `(25, 60)`. -/
theorem c4_witness :
    (((101 : ℝ) ≤ 0 ∨ (100 : ℝ) < 101) ∧ calculate_vpd 25 101 = 0) ∧
    ((25 : ℝ) ≤ 50 ∧ calculate_vpd 25 60 = vpd_spec_formula 25 60) :=
  ⟨⟨by norm_num, (c4_amended 25 101).1 (by norm_num)⟩,
   ⟨by norm_num, (c4_amended 25 60).2 (by norm_num)⟩⟩

/-- Claim C10, counterexample: `calculate_vpd 25 60` evaluates to 1.3,
which is not in the claimed interval [0.9, 1.1].  (The repository test
`test_vpd_normal_conditions` asserts the same interval and fails on the
code.) -/
theorem c10_counterexample :
    calculate_vpd 25 60 = 1.3 ∧ ¬(0.9 ≤ calculate_vpd 25 60 ∧ calculate_vpd 25 60 ≤ 1.1) := by
  refine ⟨vpd_25_60, ?_⟩
  rw [vpd_25_60]
  intro h
  have := h.2
  norm_num at this

/-- Claim C10 (amended): `calculate_vpd 25 60 = 1.3` (so it is in [1.2,
1.4], not the claimed [0.9, 1.1]); `calculate_vpd 25 80 < 0.7`;
`calculate_vpd 25 40 > 1.5`; and for every fixed temperature the result is
monotonically decreasing in the humidity over `0 < RH ≤ 100`. -/
theorem c10_amended :
    calculate_vpd 25 60 = 1.3 ∧
    calculate_vpd 25 80 < 0.7 ∧
    1.5 < calculate_vpd 25 40 ∧
    ∀ T h₁ h₂ : ℝ, 0 < h₁ → h₁ ≤ h₂ → h₂ ≤ 100 →
      calculate_vpd T h₂ ≤ calculate_vpd T h₁ := by
  refine ⟨vpd_25_60, ?_, ?_, vpd_rh_antitone⟩
  · rw [vpd_25_80]; norm_num
  · rw [vpd_25_40]; norm_num

/-- Witness for C10 (amended): the monotonicity part applied at
`T = 25, h₁ = 50, h₂ = 100`. -/
theorem c10_witness :
    (0 : ℝ) < 50 ∧ (50 : ℝ) ≤ 100 ∧ (100 : ℝ) ≤ 100 ∧
    calculate_vpd 25 100 ≤ calculate_vpd 25 50 :=
  ⟨by norm_num, by norm_num, by norm_num,
   c10_amended.2.2.2 25 50 100 (by norm_num) (by norm_num) (by norm_num)⟩

/-! ### Automation-rule claims -/

/-- Claim C1 (failing input): with the C2 rule already on (`triggered =
true`, `last_action = "on"` at time 0) and `min_on_duration = 60`, a
reading of 26.9 at time 40 passes the cooldown (40 >= 30) and takes the
exit transition, the minimum-duration guard then suppresses the "off"
action (40 < 60) — yet `triggered` has already been flipped to `false`:
the evaluation returns no command but a state whose `triggered` changed,
contradicting the claim that `triggered` is left unchanged whenever the
guard suppresses the action. -/
theorem c1_duration_guard_flips_triggered :
    evaluateRule ruleC2 ⟨some 0, some "on", some 0, true⟩ "tent1" "temperature" 26.9 40
      (some cfgC2) true
      = some (⟨some 0, some "on", some 0, false⟩, []) := by
  simp only [evaluateRule, transitionStep, executeAction, ruleC2, cfgC2, lookup, entityFalsy,
    intTruthy]
  norm_num

/-- Claim C2: the hysteresis round trip for `above-threshold(28, 1)` with a
resolving actuator and passing guards.  Starting untriggered: 29 enters the
band (fires "on" and sets `triggered`), 27 does nothing (the exit bound
`value < 27` is exclusive), 26.9 exits (fires "off" and clears
`triggered`).  `t0, t1, t2` are the three evaluation times; the hypotheses
say the cooldown (30 s) and `min_on_duration` (60 s) guards pass. -/
theorem c2_hysteresis_round_trip (t0 t1 t2 : ℚ) (_h1 : 30 ≤ t1 - t0) (h2 : 60 ≤ t2 - t0) :
    evaluateRule ruleC2 ⟨none, none, none, false⟩ "tent1" "temperature" 29 t0 (some cfgC2) true
      = some (⟨some t0, some "on", some t0, true⟩, [Command.turn_on (EntityRef.one "switch.fan")]) ∧
    evaluateRule ruleC2 ⟨some t0, some "on", some t0, true⟩ "tent1" "temperature" 27 t1
      (some cfgC2) true
      = some (⟨some t0, some "on", some t0, true⟩, []) ∧
    evaluateRule ruleC2 ⟨some t0, some "on", some t0, true⟩ "tent1" "temperature" 26.9 t2
      (some cfgC2) true
      = some (⟨some t2, some "off", some t2, false⟩,
          [Command.turn_off (EntityRef.one "switch.fan")]) := by
  refine ⟨?_, ?_, ?_⟩
  · simp only [evaluateRule, transitionStep, executeAction, ruleC2, cfgC2, lookup, entityFalsy,
      intTruthy]
    norm_num
    decide
  · simp only [evaluateRule, transitionStep, executeAction, ruleC2, cfgC2, lookup, entityFalsy,
      intTruthy]
    norm_num
  · simp only [evaluateRule, transitionStep, executeAction, ruleC2, cfgC2, lookup, entityFalsy,
      intTruthy]
    norm_num
    rw [if_neg (show ¬(t2 - t0 < 30) by linarith), if_neg (show ¬(t2 - t0 < 60) by linarith)]
    simp
    decide

/-- Witness for C2 at `t0 = 0, t1 = 30, t2 = 60`. -/
theorem c2_witness :
    ((30 : ℚ) ≤ 30 - 0 ∧ (60 : ℚ) ≤ 60 - 0) ∧
    evaluateRule ruleC2 ⟨none, none, none, false⟩ "tent1" "temperature" 29 0 (some cfgC2) true
      = some (⟨some 0, some "on", some 0, true⟩,
          [Command.turn_on (EntityRef.one "switch.fan")]) ∧
    evaluateRule ruleC2 ⟨some 0, some "on", some 0, true⟩ "tent1" "temperature" 27 30
      (some cfgC2) true
      = some (⟨some 0, some "on", some 0, true⟩, []) ∧
    evaluateRule ruleC2 ⟨some 0, some "on", some 0, true⟩ "tent1" "temperature" 26.9 60
      (some cfgC2) true
      = some (⟨some 60, some "off", some 60, false⟩,
          [Command.turn_off (EntityRef.one "switch.fan")]) :=
  ⟨⟨by norm_num, by norm_num⟩,
   c2_hysteresis_round_trip 0 30 60 (by norm_num) (by norm_num)⟩

/-- Claim C7 (failing input): the schedule checker calls `_execute_action`
without a tent config (`automation.py` lines 157 and 162 pass no
`tent_config`), so the actuator never resolves and no command is ever
issued — for the enabled schedule rule `ruleSched` every tick, including
one whose wall clock equals `trigger_schedule_on = "06:00"`, returns the
state unchanged with an empty command list, contradicting the claim that
the "on" command is issued exactly once at the matching minute. -/
theorem c7_schedule_never_issues_command (currentTime : String) (st : RuleState)
    (now : ℚ) (ok : Bool) :
    checkScheduleRule ruleSched currentTime st now ok = (st, []) := by
  simp only [checkScheduleRule, executeAction, ruleSched]
  split_ifs <;> rfl

/-- Claim C8 (failing input): the C2 rule against a tent config with no
actuator mapped.  A reading of 29 takes the entry transition, the action is
dropped by `_execute_action` (no command, `last_action` and
`last_action_time` untouched) — but `triggered` has already been flipped
from `false` to `true` in `evaluate_sensor_rules`, contradicting the claim
that the whole runtime state is unaffected. -/
theorem c8_unresolved_actuator_flips_triggered :
    evaluateRule ruleC2 ⟨none, none, none, false⟩ "tent1" "temperature" 29 5
      (some cfgNoActuator) true
      = some (⟨none, none, none, true⟩, []) := by
  simp only [evaluateRule, transitionStep, executeAction, ruleC2, cfgNoActuator, lookup]
  norm_num

/-- Claim C9: whenever a rule evaluation happens within the cooldown window
(`now - last_action_time < cooldown`), the evaluation is skipped entirely:
the runtime state is returned unchanged and no command is issued. -/
theorem c9_cooldown_skips_evaluation (rule : AutomationRule) (st : RuleState)
    (tentId sensorType : String) (value now t : ℚ) (cfg : Option TentConfig) (ok : Bool)
    (hlat : st.last_action_time = some t) (hcd : now - t < rule.cooldown) :
    evaluateRule rule st tentId sensorType value now cfg ok = some (st, []) := by
  simp [evaluateRule, hlat, hcd]

/-- Witness for C9: the C2 rule, 5 seconds after an action, cooldown 30. -/
theorem c9_witness :
    (⟨none, none, some 0, false⟩ : RuleState).last_action_time = some 0 ∧
    (5 : ℚ) - 0 < ruleC2.cooldown ∧
    evaluateRule ruleC2 ⟨none, none, some 0, false⟩ "tent1" "temperature" 29 5 (some cfgC2) true
      = some (⟨none, none, some 0, false⟩, []) :=
  ⟨rfl, by norm_num [ruleC2],
   c9_cooldown_skips_evaluation ruleC2 ⟨none, none, some 0, false⟩ "tent1" "temperature" 29 5 0
     (some cfgC2) true rfl (by norm_num [ruleC2])⟩

/-! ### Config-reload claim -/

/-- Claim C3 (failing input): with one good tent loaded, a reload whose
config files are both malformed (the loader swallows the parse errors and
returns the empty list, config.py lines 96-117) leaves the coordinator
with zero tents: `reload_config` clears `self.tents` and
`self.entity_to_tent` first (state_manager.py lines 389-391) and rebuilds
from the empty load result, contradicting the claim that the previous
in-memory config is retained. -/
theorem c3_reload_clears_to_empty_on_malformed_config :
    (reload_config ⟨[], []⟩ (load_tents_config (some [goodTent]) none)).tents ≠ [] ∧
    (reload_config (reload_config ⟨[], []⟩ (load_tents_config (some [goodTent]) none))
        (load_tents_config none none)).tents = [] ∧
    (reload_config (reload_config ⟨[], []⟩ (load_tents_config (some [goodTent]) none))
        (load_tents_config none none)).entityToTent = [] := by
  refine ⟨?_, rfl, rfl⟩
  simp [reload_config, loadConfigSM, load_tents_config, goodTent, upsert, mkTentState]

/-! ### Sensor-ingestion claims -/

lemma lookup_upsert {β : Type} (k : String) (v : β) (m : List (String × β)) :
    lookup k (upsert k v m) = some v := by
  induction m with
  | nil => simp [upsert, lookup]
  | cons p rest ih =>
    rcases p with ⟨k1, v1⟩
    by_cases h : k1 = k
    · simp [upsert, h, lookup]
    · simp [upsert, h, lookup, ih]

lemma updateSensor_existing (sensors : SensorsMap) (field : String) (f : SensorField)
    (v : Option ℚ) (unit : Option String) (e : String)
    (hf : lookup field sensors = some f) (he : e ≠ "") :
    updateSensor sensors field v unit (some e) =
      upsert field
        ⟨averagedValue (upsert e (normalizeValue field v unit) f.entities), f.unit,
          upsert e (normalizeValue field v unit) f.entities⟩ sensors := by
  simp [updateSensor, hf, he]

/-- Invariant of the reading fold: once the field exists, every further
reading updates the per-entity map by one upsert and stores the recomputed
average, so after the fold the stored value is the average of the final
per-entity map (or the untouched original when no reading arrived). -/
lemma applyReadings_go (field : String) (rs : List Reading) :
    ∀ (sensors : SensorsMap) (f : SensorField),
      lookup field sensors = some f →
      (∀ r ∈ rs, r.entity ≠ "") →
      lookup field
          (rs.foldl (fun m r => updateSensor m field r.value r.unit (some r.entity)) sensors)
        = some ⟨if rs.isEmpty then f.value
                else averagedValue
                  (rs.foldl (fun m r => upsert r.entity (normalizeValue field r.value r.unit) m)
                    f.entities),
                f.unit,
                rs.foldl (fun m r => upsert r.entity (normalizeValue field r.value r.unit) m)
                  f.entities⟩ := by
  induction rs with
  | nil => intro sensors f hf _; simpa using hf
  | cons r rs ih =>
    intro sensors f hf hne
    rw [List.foldl_cons, List.foldl_cons,
      updateSensor_existing sensors field f r.value r.unit r.entity hf
        (hne r (List.mem_cons_self r rs))]
    rw [ih (upsert field _ sensors) _ (lookup_upsert field _ sensors)
      (fun x hx => hne x (List.mem_cons_of_mem r hx))]
    cases rs with
    | nil => simp
    | cons r2 rs2 => simp

/-- The stored averaged value after a nonempty reading sequence: the first
reading stores its raw normalised value, every later state holds the
rounded mean of the latest non-null value per entity. -/
lemma applyReadings_value_formula (field : String) (r : Reading) (rs : List Reading)
    (hne : ∀ w ∈ r :: rs, w.entity ≠ "") :
    sensorValue (applyReadings field (r :: rs)) field
      = if rs.isEmpty then normalizeValue field r.value r.unit
        else averagedValue (latestEntities field (r :: rs)) := by
  have hfirst : updateSensor [] field r.value r.unit (some r.entity)
      = [(field, ⟨normalizeValue field r.value r.unit, r.unit,
          [(r.entity, normalizeValue field r.value r.unit)]⟩)] := by
    simp [updateSensor, lookup, upsert, hne r (List.mem_cons_self r rs)]
  have hgo := applyReadings_go field rs
      [(field, ⟨normalizeValue field r.value r.unit, r.unit,
        [(r.entity, normalizeValue field r.value r.unit)]⟩)]
      ⟨normalizeValue field r.value r.unit, r.unit,
        [(r.entity, normalizeValue field r.value r.unit)]⟩
      (by simp [lookup])
      (fun x hx => hne x (List.mem_cons_of_mem r hx))
  rw [applyReadings, List.foldl_cons, hfirst, sensorValue, hgo]
  simp [latestEntities, List.foldl_cons, upsert]

/-- Two entities reporting once each: the final averaged value does not
depend on the arrival order and equals the rounded mean. -/
lemma applyReadings_two_entity_order (va vb : ℚ) :
    sensorValue (applyReadings "humidity"
        [⟨"ent_a", some va, none⟩, ⟨"ent_b", some vb, none⟩]) "humidity"
      = sensorValue (applyReadings "humidity"
        [⟨"ent_b", some vb, none⟩, ⟨"ent_a", some va, none⟩]) "humidity"
    ∧ sensorValue (applyReadings "humidity"
        [⟨"ent_a", some va, none⟩, ⟨"ent_b", some vb, none⟩]) "humidity"
      = some (round1 ((va + vb) / 2)) := by
  constructor
  · simp [applyReadings, updateSensor, lookup, upsert, sensorValue, normalizeValue, averagedValue]
    rw [add_comm]
  · simp [applyReadings, updateSensor, lookup, upsert, sensorValue, normalizeValue, averagedValue]

lemma applyReadings_single_20 :
    sensorValue (applyReadings "temperature" [⟨"ent_a", some 20, none⟩]) "temperature"
      = some 20 := by
  simp [applyReadings, updateSensor, lookup, upsert, sensorValue, normalizeValue,
    normalizeTemperature, isFahrenheit]
  rw [round1_eq_of_bounds 20 200 (by norm_num) (by norm_num)]
  norm_num

lemma applyReadings_20_24 :
    sensorValue (applyReadings "temperature"
      [⟨"ent_a", some 20, none⟩, ⟨"ent_b", some 24, none⟩]) "temperature" = some 22 := by
  simp [applyReadings, updateSensor, lookup, upsert, sensorValue, normalizeValue,
    normalizeTemperature, isFahrenheit, averagedValue]
  rw [round1_eq_of_bounds 20 200 (by norm_num) (by norm_num),
    round1_eq_of_bounds 24 240 (by norm_num) (by norm_num)]
  norm_num
  rw [round1_eq_of_bounds _ 220 (by norm_num) (by norm_num)]
  norm_num

/-- Claim C5, counterexample: a single reading of 55.51 is stored raw
(the field-creation branch of `update_sensor` does not round), so the
field's averaged value is 55.51 while the rounded mean of the latest
per-entity values is 55.5 — the claimed equality fails after a one-reading
sequence whose value is not already at one-decimal precision. -/
theorem c5_counterexample :
    sensorValue (applyReadings "humidity" [⟨"ent_a", some (5551 / 100), none⟩]) "humidity"
      = some (5551 / 100) ∧
    averagedValue (latestEntities "humidity" [⟨"ent_a", some (5551 / 100), none⟩])
      = some (555 / 10) ∧
    (5551 / 100 : ℚ) ≠ 555 / 10 := by
  refine ⟨?_, ?_, by norm_num⟩
  · simp [applyReadings, updateSensor, lookup, upsert, sensorValue, normalizeValue]
  · simp [latestEntities, upsert, averagedValue, normalizeValue]
    rw [round1_eq_of_bounds _ 555 (by norm_num) (by norm_num)]
    norm_num

/-- Claim C5 (amended): after any nonempty sequence of readings with truthy
entity ids, the field's averaged value equals the arithmetic mean (rounded
to one decimal) of the latest non-null value of each entity — except after
the very first reading, which is stored raw (unrounded); the value is
independent of arrival order (shown for two entities), and in particular
A=20 then B=24 transitions the value 20 → 22, while B never reporting
leaves it at 20. -/
theorem c5_amended :
    (∀ (field : String) (r : Reading) (rs : List Reading),
       (∀ w ∈ r :: rs, w.entity ≠ "") →
       sensorValue (applyReadings field (r :: rs)) field
         = if rs.isEmpty then normalizeValue field r.value r.unit
           else averagedValue (latestEntities field (r :: rs))) ∧
    (∀ va vb : ℚ,
       sensorValue (applyReadings "humidity"
           [⟨"ent_a", some va, none⟩, ⟨"ent_b", some vb, none⟩]) "humidity"
         = sensorValue (applyReadings "humidity"
           [⟨"ent_b", some vb, none⟩, ⟨"ent_a", some va, none⟩]) "humidity") ∧
    sensorValue (applyReadings "temperature" [⟨"ent_a", some 20, none⟩]) "temperature"
      = some 20 ∧
    sensorValue (applyReadings "temperature"
      [⟨"ent_a", some 20, none⟩, ⟨"ent_b", some 24, none⟩]) "temperature" = some 22 :=
  ⟨applyReadings_value_formula,
   fun va vb => (applyReadings_two_entity_order va vb).1,
   applyReadings_single_20, applyReadings_20_24⟩

/-- Witness for C5 (amended): the value formula applied to the
single-reading sequence A=20. -/
theorem c5_witness :
    (∀ w ∈ [(⟨"ent_a", some (20 : ℚ), none⟩ : Reading)], w.entity ≠ "") ∧
    sensorValue (applyReadings "temperature" [⟨"ent_a", some (20 : ℚ), none⟩]) "temperature"
      = if ([] : List Reading).isEmpty then normalizeValue "temperature" (some 20) none
        else averagedValue (latestEntities "temperature" [⟨"ent_a", some (20 : ℚ), none⟩]) :=
  ⟨by simp, c5_amended.1 "temperature" ⟨"ent_a", some 20, none⟩ [] (by simp)⟩

lemma toLower_empty : "".toLower = "" := by
  rw [String.toLower, String.map, String.mapAux]
  simp
  exact fun h => (h (by decide)).elim

lemma toLower_empty_contains : "".toLower.contains 'f' = false := by
  rw [toLower_empty]
  rw [String.contains, String.any, String.anyAux]
  simp

/-- Claim C6: a temperature reading is converted from Fahrenheit exactly
when the unit string contains "f" after lowercasing, or no unit is given
and the value exceeds 50 (the empty-string unit is falsy in the source and
contains no "f", so the two conditions agree); 98 with no unit is stored as
36.7, while 25 with no unit stays 25. -/
theorem c6_fahrenheit_normalization :
    (∀ (v : ℚ) (unit : Option String),
       isFahrenheit v unit = true ↔
         ((∃ u, unit = some u ∧ u.toLower.contains 'f' = true) ∨ (unit = none ∧ 50 < v))) ∧
    sensorValue (updateSensor [] "temperature" (some 98) none (some "ent_a")) "temperature"
      = some (367 / 10) ∧
    sensorValue (updateSensor [] "temperature" (some 25) none (some "ent_a")) "temperature"
      = some 25 := by
  refine ⟨?_, ?_, ?_⟩
  · intro v unit
    cases unit with
    | none => simp [isFahrenheit]
    | some u =>
      simp [isFahrenheit]
      intro hc
      cases he : u.isEmpty with
      | false => rfl
      | true =>
        rw [String.isEmpty_iff] at he
        subst he
        exact absurd hc (by rw [toLower_empty_contains]; exact Bool.false_ne_true)
  · simp [updateSensor, lookup, upsert, sensorValue, normalizeValue, normalizeTemperature,
      isFahrenheit, fahrenheit_to_celsius]
    rw [round1_eq_of_bounds ((98 - 32) * 5 / 9) 367 (by norm_num) (by norm_num)]
    norm_num
  · simp [updateSensor, lookup, upsert, sensorValue, normalizeValue, normalizeTemperature,
      isFahrenheit]
    rw [round1_eq_of_bounds 25 250 (by norm_num) (by norm_num)]
    norm_num
